import Mathlib

/-!
Verification of the hatchet-dev/pycon25 content-generation pipeline.

The Python sources are shallowly embedded: Python strings are `String` /
`List Char`, parsed JSON payloads are `PyVal` dictionaries, pydantic
validation and task bodies are explicit `Except`-returning functions, and
the `twitter_agent` compose-judge loop is a fuel-indexed recursion mirroring
`for i in range(3)`.
-/

deriving instance DecidableEq for Except

namespace Pycon25

/-! ## Python string primitives -/

/-- Whitespace characters recognised by Python's `str.strip()` and `\s`
(ASCII subset: space, tab, newline, carriage return, vertical tab, form feed). -/
def isPySpace (c : Char) : Bool :=
  c = ' ' || c = '\t' || c = '\n' || c = '\r' || c = Char.ofNat 11 || c = Char.ofNat 12

/-- Drop leading Python whitespace (the first half of `str.strip()`). -/
def dropLeadWs (l : List Char) : List Char := l.dropWhile isPySpace

/-- Drop trailing Python whitespace (the second half of `str.strip()`). -/
def dropTrailWs (l : List Char) : List Char := (l.reverse.dropWhile isPySpace).reverse

/-- Python `str.strip()` on character lists. -/
def pyStrip (l : List Char) : List Char := dropTrailWs (dropLeadWs l)

/-- Python `str.strip()` on `String`. -/
def pyStripS (s : String) : String := ⟨pyStrip s.data⟩

/-- Python `re.sub(r"\s+", " ", s)`: every maximal run of whitespace becomes a
single space. -/
def collapseWs : List Char → List Char
  | [] => []
  | [c] => if isPySpace c then [' '] else [c]
  | c :: d :: rest =>
    if isPySpace c then
      if isPySpace d then collapseWs (d :: rest)
      else ' ' :: collapseWs (d :: rest)
    else c :: collapseWs (d :: rest)

/-! ## Lazy tag-removal regexes of `_prepare_html`

`re.sub(r"<script.*?>.*?</script>", "", s, flags=DOTALL|IGNORECASE)` scans
left to right; at the first position starting (case-insensitively) with
`<script`, the lazy `.*?>` extends to the first `>`, and the lazy
`.*?</script>` extends to the first closing tag after it (if the closing tag
is missing the match fails for good, since any later `>` only lies further
right).  Matches are removed non-overlapping and scanning resumes after the
removed region. -/

/-- Case-insensitive "starts with" on character lists. -/
def startsWithCI : List Char → List Char → Bool
  | [], _ => true
  | _ :: _, [] => false
  | p :: ps, c :: cs => (p.toLower = c.toLower) && startsWithCI ps cs

/-- Suffix strictly after the first `>` character, if any. -/
def dropPastGt : List Char → Option (List Char)
  | [] => none
  | c :: t => if c = '>' then some t else dropPastGt t

/-- Suffix strictly after the first (case-insensitive) occurrence of `pat`. -/
def dropPastCI (pat : List Char) : List Char → Option (List Char)
  | [] => if startsWithCI pat [] then some [] else none
  | c :: t =>
    if startsWithCI pat (c :: t) then some ((c :: t).drop pat.length)
    else dropPastCI pat t

/-- Try the lazy match `openT.*?>.*?closeT` anchored at the head of `s`;
return the suffix after the match. -/
def matchTagAt (openT closeT s : List Char) : Option (List Char) :=
  if startsWithCI openT s then
    match dropPastGt (s.drop openT.length) with
    | none => none
    | some afterGt => dropPastCI closeT afterGt
  else none

/-- One `re.sub` pass removing every non-overlapping lazy `openT...closeT`
match, scanning left to right.  Every successful match strictly shrinks the
remaining input, so `fuel = s.length` always suffices (fuel 0 is reached only
on the empty remainder). -/
def subTagFuel (openT closeT : List Char) : Nat → List Char → List Char
  | 0, s => s
  | _ + 1, [] => []
  | fuel + 1, c :: t =>
    match matchTagAt openT closeT (c :: t) with
    | some rest => subTagFuel openT closeT fuel rest
    | none => c :: subTagFuel openT closeT fuel t

/-- `re.sub(openT..closeT, "", s)` with adequate fuel. -/
def subTag (openT closeT s : List Char) : List Char :=
  subTagFuel openT closeT s.length s

/-- `re.sub(r"<script.*?>.*?</script>", "", raw, flags=re.DOTALL | re.IGNORECASE)`. -/
def removeScriptBlocks (s : List Char) : List Char :=
  subTag "<script".data "</script>".data s

/-- `re.sub(r"<style.*?>.*?</style>", "", s, flags=re.DOTALL | re.IGNORECASE)`. -/
def removeStyleBlocks (s : List Char) : List Char :=
  subTag "<style".data "</style>".data s

/-- The `condensed` value of `_prepare_html` in
`src/agents/researcher/tools/read_website.py`: scripts removed, styles
removed, whitespace runs collapsed, then stripped. -/
def condensedHtml (raw : List Char) : List Char :=
  pyStrip (collapseWs (removeStyleBlocks (removeScriptBlocks raw)))

/-- `_prepare_html(raw_html, max_characters)`
(src/agents/researcher/tools/read_website.py lines 148-162): return
`condensed[:max_characters]` when the condensed text is longer than the
bound, otherwise `condensed` itself. -/
def prepare_html (raw : List Char) (maxChars : Nat) : List Char :=
  if maxChars < (condensedHtml raw).length then (condensedHtml raw).take maxChars
  else condensedHtml raw

/-! ## Output-shape predicates used to state the `_prepare_html` claims -/

/-- The first character, if any, is not whitespace. -/
def noLeadWsOk : List Char → Bool
  | [] => true
  | c :: _ => !isPySpace c

/-- The last character, if any, is not whitespace. -/
def noTrailWsOk (l : List Char) : Bool := noLeadWsOk l.reverse

/-- Whitespace is fully collapsed: any whitespace character is a plain space
and no two adjacent characters are both whitespace. -/
def collapsedOk : List Char → Bool
  | [] => true
  | [c] => !isPySpace c || c = ' '
  | c :: d :: rest =>
    (!isPySpace c || c = ' ') && !(isPySpace c && isPySpace d) && collapsedOk (d :: rest)

/-! ## Parsed JSON payloads and Python dictionaries -/

/-- A scalar Python value as produced by `json.loads`. -/
inductive PyLeaf
  | lNull
  | lBool (b : Bool)
  | lNum (q : ℚ)
  | lStr (s : String)
deriving DecidableEq

/-- A Python value as produced by `json.loads`: a scalar or a (flat) list of
scalars — the payloads handled by this repository nest no deeper. -/
inductive PyVal
  | leaf (v : PyLeaf)
  | vList (l : List PyLeaf)
deriving DecidableEq

/-- Python `None`. -/
def PyVal.vNull : PyVal := .leaf .lNull

/-- A Python boolean value. -/
def PyVal.vBool (b : Bool) : PyVal := .leaf (.lBool b)

/-- A Python numeric value. -/
def PyVal.vNum (q : ℚ) : PyVal := .leaf (.lNum q)

/-- A Python string value. -/
def PyVal.vStr (s : String) : PyVal := .leaf (.lStr s)

/-- Errors raised by the embedded Python code. -/
inductive PyError
  | keyError (k : String)
  | attributeError
  | typeError (msg : String)
  | validationError (msg : String)
  | runtimeError (msg : String)
  | valueError (msg : String)
deriving DecidableEq

/-- Python truthiness (`bool(v)`). -/
def pyTruthy : PyVal → Bool
  | .leaf .lNull => false
  | .leaf (.lBool b) => b
  | .leaf (.lNum q) => decide (q ≠ 0)
  | .leaf (.lStr s) => decide (s ≠ "")
  | .vList l => decide (l ≠ [])

/-- `d[k]` as an optional lookup on an association-list dictionary. -/
def dictLookup (d : List (String × PyVal)) (k : String) : Option PyVal :=
  (d.find? (fun p => p.1 = k)).map Prod.snd

/-- Python `d.get(k, default)`. -/
def dictGet (d : List (String × PyVal)) (k : String) (default : PyVal) : PyVal :=
  (dictLookup d k).getD default

/-! ## judge_tweet post-processing (src/agents/twitter/tools/judge_tweet.py) -/

/-- Structured response of the `judge_tweet` task. -/
structure JudgeTweetResult where
  should_publish : Bool
  feedback : String
  model : String
deriving DecidableEq

/-- The generic fallback feedback substituted for an empty rejection
feedback (judge_tweet.py line 100). -/
def judgeFallbackFeedback : String :=
  "Revise the tweet to improve clarity, tone, or engagement before publishing."

/-- Lines 94-106 of judge_tweet.py: coerce `should_publish` with Python
truthiness (default `False`), strip the feedback (default `""`; a non-string
feedback raises `AttributeError` from `.strip()`), blank the feedback on
acceptance, and substitute the generic fallback when a rejection feedback is
empty. -/
def judgePostProcess (parsed : List (String × PyVal)) (modelName : String) :
    Except PyError JudgeTweetResult :=
  let sp := pyTruthy (dictGet parsed "should_publish" (.vBool false))
  match dictGet parsed "feedback" (.vStr "") with
  | .leaf (.lStr raw) =>
    let fb := pyStripS raw
    .ok ⟨sp, if sp then "" else if fb = "" then judgeFallbackFeedback else fb, modelName⟩
  | _ => .error .attributeError

/-! ## compose_tweet field extraction (src/agents/twitter/tools/compose_tweet.py) -/

/-- Structured response of the `compose_tweet` task. -/
structure ComposeTweetResult where
  tweet : String
  tone : String
  hashtags : List String
  model : String
deriving DecidableEq

/-- Python iteration `for tag in v`: lists yield their items, strings yield
their characters as one-character strings, and other values raise
`TypeError`. -/
def iterablePy : PyVal → Except PyError (List PyLeaf)
  | .vList l => .ok l
  | .leaf (.lStr s) => .ok (s.data.map (fun c => .lStr ⟨[c]⟩))
  | _ => .error (.typeError "object is not iterable")

/-- The comprehension `[tag.strip() for tag in tags if tag.strip()]`:
each element must be a string (otherwise `.strip()` raises
`AttributeError`); stripped elements are kept, in order, when non-empty. -/
def stripFilterStrs : List PyLeaf → Except PyError (List String)
  | [] => .ok []
  | .lStr t :: rest =>
    match stripFilterStrs rest with
    | .error e => .error e
    | .ok r => .ok (if pyStripS t = "" then r else pyStripS t :: r)
  | _ :: _ => .error .attributeError

/-- Lines 109-117 of compose_tweet.py: `parsed["tweet"].strip()` (a missing
key raises `KeyError`, a non-string raises `AttributeError`), hashtags from
`parsed.get("hashtags", [])` stripped and blank-filtered, and the
`ComposeTweetResult` assembled with the caller's tone and model. -/
def composeExtractFields (parsed : List (String × PyVal)) (tone modelName : String) :
    Except PyError ComposeTweetResult :=
  match dictLookup parsed "tweet" with
  | none => .error (.keyError "tweet")
  | some (.leaf (.lStr s)) =>
    match iterablePy (dictGet parsed "hashtags" (.vList [])) with
    | .error e => .error e
    | .ok items =>
      match stripFilterStrs items with
      | .error e => .error e
      | .ok tags => .ok ⟨pyStripS s, tone, tags, modelName⟩
  | some _ => .error .attributeError

/-- `response_to_pydantic` (src/common/response.py lines 9-15): a falsy
content (absent or empty string) raises
`TypeError("OpenAI returned empty content.")`; otherwise the payload is
validated against the pydantic model (abstracted as `modelValidateJson`). -/
def response_to_pydantic {α : Type} (content : Option String)
    (modelValidateJson : String → Except PyError α) : Except PyError α :=
  match content with
  | none => .error (.typeError "OpenAI returned empty content.")
  | some s =>
    if s = "" then .error (.typeError "OpenAI returned empty content.")
    else modelValidateJson s

/-! ## pydantic input validation (ComposeTweetInput / JudgeTweetInput) -/

/-- `ComposeTweetInput` of compose_tweet.py lines 16-37 (field order:
prompt, tone, include_hashtags, model, temperature). -/
structure ComposeTweetInput where
  prompt : String
  tone : String
  include_hashtags : Bool
  model : String
  temperature : ℚ
deriving DecidableEq

/-- `JudgeTweetInput` of judge_tweet.py lines 16-31. -/
structure JudgeTweetInputV where
  tweet : String
  model : String
  temperature : ℚ
deriving DecidableEq

/-- pydantic validation of one `str` field: a provided value must be a
string (no constraint on its content, in particular it may be empty); an
absent value falls back to the declared default, and a required field
(`default = none`) fails when absent. -/
def validateStrField (kwargs : List (String × PyVal)) (k : String)
    (default : Option String) : Except PyError String :=
  match dictLookup kwargs k with
  | some (.leaf (.lStr s)) => .ok s
  | some _ => .error (.validationError (k ++ ": Input should be a valid string"))
  | none =>
    match default with
    | some d => .ok d
    | none => .error (.validationError (k ++ ": Field required"))

/-- pydantic validation of one `bool` field with a default. -/
def validateBoolField (kwargs : List (String × PyVal)) (k : String)
    (default : Bool) : Except PyError Bool :=
  match dictLookup kwargs k with
  | some (.leaf (.lBool b)) => .ok b
  | some _ => .error (.validationError (k ++ ": Input should be a valid boolean"))
  | none => .ok default

/-- pydantic validation of one `float` field carrying `ge`/`le` bounds and a
default (defaults are not re-validated, matching pydantic's
`validate_default=False`). -/
def validateNumField (kwargs : List (String × PyVal)) (k : String)
    (default lo hi : ℚ) : Except PyError ℚ :=
  match dictLookup kwargs k with
  | some (.leaf (.lNum q)) =>
    if lo ≤ q ∧ q ≤ hi then .ok q
    else .error (.validationError (k ++ ": Input should be within the declared bounds"))
  | some _ => .error (.validationError (k ++ ": Input should be a valid number"))
  | none => .ok default

/-- pydantic validation of a `ComposeTweetInput` from keyword arguments:
`prompt` is required, `tone`/`include_hashtags`/`model`/`temperature` have
defaults, `temperature` is bounded to `[0, 2]`, unknown keys are ignored. -/
def validateComposeTweetInput (kwargs : List (String × PyVal)) :
    Except PyError ComposeTweetInput :=
  match validateStrField kwargs "prompt" none with
  | .error e => .error e
  | .ok prompt =>
    match validateStrField kwargs "tone" (some "punchy") with
    | .error e => .error e
    | .ok tone =>
      match validateBoolField kwargs "include_hashtags" true with
      | .error e => .error e
      | .ok ih =>
        match validateStrField kwargs "model" (some "gpt-4o-mini") with
        | .error e => .error e
        | .ok modelName =>
          match validateNumField kwargs "temperature" (mkRat 4 5) 0 2 with
          | .error e => .error e
          | .ok temp => .ok ⟨prompt, tone, ih, modelName, temp⟩

/-- pydantic validation of a `JudgeTweetInput`: `tweet` is required,
`model`/`temperature` have defaults, `temperature` is bounded to `[0, 2]`. -/
def validateJudgeTweetInput (kwargs : List (String × PyVal)) :
    Except PyError JudgeTweetInputV :=
  match validateStrField kwargs "tweet" none with
  | .error e => .error e
  | .ok tweet =>
    match validateStrField kwargs "model" (some "gpt-4o-mini") with
    | .error e => .error e
    | .ok modelName =>
      match validateNumField kwargs "temperature" (mkRat 1 5) 0 2 with
      | .error e => .error e
      | .ok temp => .ok ⟨tweet, modelName, temp⟩

/-! ## Task bodies: validation, one model call, extraction

A Hatchet task first validates its keyword arguments against the pydantic
input model, and only then runs its body, which performs exactly one OpenAI
call.  The model call is abstracted as an oracle producing the parsed JSON
payload; each task returns its result together with the number of model
calls it issued. -/

/-- The `compose_tweet` task: pydantic validation, then one model call whose
parsed payload goes through the line 109-117 field extraction. -/
def composeTweetTask (kwargs : List (String × PyVal))
    (oracle : ComposeTweetInput → List (String × PyVal)) :
    Except PyError ComposeTweetResult × Nat :=
  match validateComposeTweetInput kwargs with
  | .error e => (.error e, 0)
  | .ok i =>
    match composeExtractFields (oracle i) i.tone i.model with
    | .error e => (.error e, 1)
    | .ok r => (.ok r, 1)

/-- The `judge_tweet` task: pydantic validation, then one model call whose
parsed payload goes through the line 94-106 post-processing. -/
def judgeTweetTask (kwargs : List (String × PyVal))
    (oracle : JudgeTweetInputV → List (String × PyVal)) :
    Except PyError JudgeTweetResult × Nat :=
  match validateJudgeTweetInput kwargs with
  | .error e => (.error e, 0)
  | .ok i =>
    match judgePostProcess (oracle i) i.model with
    | .error e => (.error e, 1)
    | .ok r => (.ok r, 1)

/-! ## The twitter_agent workflow (src/agents/twitter/twitter_agent.py) -/

/-- Final output of the `twitter_agent` workflow. -/
structure TwitterAgentOutput where
  tweet : String
  hashtags : List String
deriving DecidableEq

/-- Python `None`-or-string as a `PyVal`. -/
def pyOfOptStr : Option String → PyVal
  | none => .vNull
  | some s => .vStr s

/-- The keyword arguments `twitter_agent` passes to `ComposeTweetInput` on
every iteration (twitter_agent.py lines 27-33): note the key is `message`,
not the required `prompt`, and no feedback or prior candidate is passed. -/
def twitterAgentComposeKwargs (message : Option String) : List (String × PyVal) :=
  [("message", pyOfOptStr message), ("tone", .vStr "punchy"),
   ("include_hashtags", .vBool true), ("model", .vStr "gpt-4o-mini"),
   ("temperature", .vNum (mkRat 4 5))]

/-- The keyword arguments `twitter_agent` passes to `JudgeTweetInput`
(twitter_agent.py lines 36-40). -/
def twitterAgentJudgeKwargs (tweet : String) : List (String × PyVal) :=
  [("tweet", .vStr tweet), ("model", .vStr "gpt-4o-mini"),
   ("temperature", .vNum (mkRat 1 5))]

/-- The `for i in range(3)` body of `twitter_agent` (lines 25-51), faithful
to the source: each iteration runs the compose task on the fixed kwargs and
the judge task on the composed tweet, returns on `should_publish`, and after
the loop raises `ValueError("Failed to generate a tweet")`.  A task error
(an uncaught Python exception) aborts the whole workflow.  Oracles are
indexed by the attempt number to model fresh stochastic model calls; the
second component counts model calls issued. -/
def twitterAgentGo (message : Option String)
    (co : Nat → ComposeTweetInput → List (String × PyVal))
    (jo : Nat → JudgeTweetInputV → List (String × PyVal)) :
    Nat → Nat → Except PyError TwitterAgentOutput × Nat
  | _, 0 => (.error (.valueError "Failed to generate a tweet"), 0)
  | i, fuel + 1 =>
    match composeTweetTask (twitterAgentComposeKwargs message) (co i) with
    | (.error e, n) => (.error e, n)
    | (.ok tweet, n) =>
      match judgeTweetTask (twitterAgentJudgeKwargs tweet.tweet) (jo i) with
      | (.error e, m) => (.error e, n + m)
      | (.ok verdict, m) =>
        if verdict.should_publish then (.ok ⟨tweet.tweet, tweet.hashtags⟩, n + m)
        else
          let r := twitterAgentGo message co jo (i + 1) fuel
          (r.1, n + m + r.2)

/-- The full `twitter_agent` workflow: the loop starting at attempt 0 with
the hard-coded bound of 3 attempts. -/
def twitterAgentRun (message : Option String)
    (co : Nat → ComposeTweetInput → List (String × PyVal))
    (jo : Nat → JudgeTweetInputV → List (String × PyVal)) :
    Except PyError TwitterAgentOutput × Nat :=
  twitterAgentGo message co jo 0 3

/-! ## The compose-judge control skeleton

`twitterAgentRun` shows the workflow dies in `ComposeTweetInput` validation
before any model call (claim C9), so claims about the loop structure itself
are settled on the control skeleton of lines 25-51: the same
`for i in range(3)` recursion, abstracted over the two task invocations
(which are assumed to return results).  The trace component records the
keyword arguments handed to each compose call, in order. -/

def twitterAgentLoopIdeal (message : Option String)
    (composeCall : Nat → List (String × PyVal) → ComposeTweetResult)
    (judgeCall : Nat → String → JudgeTweetResult) :
    Nat → Nat → Except PyError TwitterAgentOutput × List (List (String × PyVal))
  | _, 0 => (.error (.valueError "Failed to generate a tweet"), [])
  | i, fuel + 1 =>
    let kwargs := twitterAgentComposeKwargs message
    let tweet := composeCall i kwargs
    let verdict := judgeCall i tweet.tweet
    if verdict.should_publish then (.ok ⟨tweet.tweet, tweet.hashtags⟩, [kwargs])
    else
      let r := twitterAgentLoopIdeal message composeCall judgeCall (i + 1) fuel
      (r.1, kwargs :: r.2)

/-- The idealized loop started like the source: attempt 0, bound 3. -/
def twitterAgentIdeal (message : Option String)
    (composeCall : Nat → List (String × PyVal) → ComposeTweetResult)
    (judgeCall : Nat → String → JudgeTweetResult) :
    Except PyError TwitterAgentOutput × List (List (String × PyVal)) :=
  twitterAgentLoopIdeal message composeCall judgeCall 0 3

/-- The judge verdict the idealized loop observes at attempt `i`. -/
def idealVerdictAt (message : Option String)
    (composeCall : Nat → List (String × PyVal) → ComposeTweetResult)
    (judgeCall : Nat → String → JudgeTweetResult) (i : Nat) : Bool :=
  (judgeCall i (composeCall i (twitterAgentComposeKwargs message)).tweet).should_publish

/-! ## LinkedIn post assembly (src/agents/linkedin/tools/create_post.py) -/

/-- `_compose_linkedin_post(headline, body, cta, hashtags)` (lines 166-177):
build `[headline.strip(), "", body.strip(), "", cta.strip()]`, append `""`
and `" ".join(hashtags)` when the hashtag list is non-empty, then join the
truthy (non-empty) sections with `"\n"`. -/
def composeLinkedinPost (headline body cta : String) (hashtags : List String) :
    String :=
  let sections := [pyStripS headline, "", pyStripS body, "", pyStripS cta]
    ++ (if hashtags = [] then [] else ["", String.intercalate " " hashtags])
  String.intercalate "\n" (sections.filter (fun s => s ≠ ""))

/-! ## Helper lemmas: stripping and collapsing whitespace -/

theorem noLeadWsOk_dropWhile (l : List Char) :
    noLeadWsOk (l.dropWhile isPySpace) = true := by
  induction l with
  | nil => rfl
  | cons c t ih =>
    by_cases h : isPySpace c
    · simpa [List.dropWhile_cons, h] using ih
    · simp [List.dropWhile_cons, h, noLeadWsOk]

theorem noLeadWsOk_dropLeadWs (l : List Char) : noLeadWsOk (dropLeadWs l) = true :=
  noLeadWsOk_dropWhile l

theorem noTrailWsOk_dropTrailWs (l : List Char) :
    noTrailWsOk (dropTrailWs l) = true := by
  unfold noTrailWsOk dropTrailWs
  rw [List.reverse_reverse]
  exact noLeadWsOk_dropWhile _

theorem dropLeadWs_eq_self (l : List Char) (h : noLeadWsOk l = true) :
    dropLeadWs l = l := by
  cases l with
  | nil => rfl
  | cons c t =>
    simp only [noLeadWsOk, Bool.not_eq_true'] at h
    simp [dropLeadWs, List.dropWhile_cons, h]

theorem dropTrailWs_eq_self (l : List Char) (h : noTrailWsOk l = true) :
    dropTrailWs l = l := by
  unfold noTrailWsOk at h
  have : l.reverse.dropWhile isPySpace = l.reverse := by
    have := dropLeadWs_eq_self l.reverse h
    simpa [dropLeadWs] using this
  simp [dropTrailWs, this]

theorem dropTrailWs_eq_take (l : List Char) :
    dropTrailWs l = l.take (dropTrailWs l).length := by
  obtain ⟨t, ht⟩ : l.reverse.dropWhile isPySpace <:+ l.reverse :=
    List.dropWhile_suffix _
  have hp : dropTrailWs l <+: l := by
    refine ⟨t.reverse, ?_⟩
    have hrev : (t ++ l.reverse.dropWhile isPySpace).reverse = l := by
      rw [ht, List.reverse_reverse]
    simpa [dropTrailWs, List.reverse_append] using hrev
  exact List.prefix_iff_eq_take.1 hp

theorem noLeadWsOk_take (l : List Char) (n : Nat) (h : noLeadWsOk l = true) :
    noLeadWsOk (l.take n) = true := by
  cases l with
  | nil => simp [List.take_nil, noLeadWsOk]
  | cons c t =>
    cases n with
    | zero => rfl
    | succ m => simpa [List.take_succ_cons, noLeadWsOk] using h

theorem collapsedOk_take :
    ∀ (l : List Char) (n : Nat), collapsedOk l = true → collapsedOk (l.take n) = true
  | [], _, _ => by simp [List.take_nil, collapsedOk]
  | _ :: _, 0, _ => rfl
  | [c], n + 1, h => by simpa [List.take_succ_cons, List.take_nil] using h
  | c :: d :: t, n + 1, h => by
    simp only [collapsedOk, Bool.and_eq_true] at h
    cases n with
    | zero =>
      rw [List.take_succ_cons, List.take_zero]
      exact h.1.1
    | succ m =>
      have ih := collapsedOk_take (d :: t) (m + 1) h.2
      simp only [List.take_succ_cons] at ih ⊢
      simp only [collapsedOk, Bool.and_eq_true]
      exact ⟨h.1, ih⟩

theorem collapsedOk_tail (c : Char) (l : List Char) (h : collapsedOk (c :: l) = true) :
    collapsedOk l = true := by
  cases l with
  | nil => rfl
  | cons d t =>
    simp only [collapsedOk, Bool.and_eq_true] at h
    exact h.2

theorem collapsedOk_dropWhile (p : Char → Bool) :
    ∀ l : List Char, collapsedOk l = true → collapsedOk (l.dropWhile p) = true
  | [], _ => by simp [List.dropWhile_nil, collapsedOk]
  | c :: t, h => by
    by_cases hp : p c
    · rw [List.dropWhile_cons_of_pos hp]
      exact collapsedOk_dropWhile p t (collapsedOk_tail c t h)
    · rwa [List.dropWhile_cons_of_neg hp]

theorem collapsedOk_cons_nonws (c : Char) (l : List Char) (hc : isPySpace c = false)
    (h : collapsedOk l = true) : collapsedOk (c :: l) = true := by
  cases l with
  | nil => simp [collapsedOk, hc]
  | cons d t =>
    simp only [collapsedOk, Bool.and_eq_true] at h ⊢
    simp [hc, h]

theorem collapseWs_cons_of_nonws (d : Char) (rest : List Char)
    (h : isPySpace d = false) : ∃ y, collapseWs (d :: rest) = d :: y := by
  cases rest with
  | nil => exact ⟨[], by simp [collapseWs, h]⟩
  | cons e r => exact ⟨collapseWs (e :: r), by simp [collapseWs, h]⟩

theorem collapsedOk_collapseWs : ∀ l : List Char, collapsedOk (collapseWs l) = true
  | [] => rfl
  | [c] => by
    by_cases h : isPySpace c
    · rw [show collapseWs [c] = [' '] by simp [collapseWs, h]]
      decide
    · rw [show collapseWs [c] = [c] by simp [collapseWs, h]]
      simp [collapsedOk, h]
  | c :: d :: rest => by
    have ih := collapsedOk_collapseWs (d :: rest)
    by_cases hc : isPySpace c
    · by_cases hd : isPySpace d
      · simpa [collapseWs, hc, hd] using ih
      · obtain ⟨y, hy⟩ := collapseWs_cons_of_nonws d rest (by simpa using hd)
        rw [show collapseWs (c :: d :: rest) = ' ' :: collapseWs (d :: rest) by
          simp [collapseWs, hc, hd]]
        rw [hy] at ih ⊢
        simp only [collapsedOk, Bool.and_eq_true] at ih ⊢
        refine ⟨⟨by simp [isPySpace], by simp [hd]⟩, ih⟩
    · rw [show collapseWs (c :: d :: rest) = c :: collapseWs (d :: rest) by
        simp [collapseWs, hc]]
      exact collapsedOk_cons_nonws _ _ (by simpa using hc) ih

theorem noLeadWsOk_dropTrailWs (l : List Char) (h : noLeadWsOk l = true) :
    noLeadWsOk (dropTrailWs l) = true := by
  rw [dropTrailWs_eq_take l]
  exact noLeadWsOk_take l _ h

theorem collapsedOk_dropTrailWs (l : List Char) (h : collapsedOk l = true) :
    collapsedOk (dropTrailWs l) = true := by
  rw [dropTrailWs_eq_take l]
  exact collapsedOk_take l _ h

theorem noLeadWsOk_pyStrip (l : List Char) : noLeadWsOk (pyStrip l) = true :=
  noLeadWsOk_dropTrailWs _ (noLeadWsOk_dropLeadWs l)

theorem noTrailWsOk_pyStrip (l : List Char) : noTrailWsOk (pyStrip l) = true :=
  noTrailWsOk_dropTrailWs _

theorem collapsedOk_pyStrip (l : List Char) (h : collapsedOk l = true) :
    collapsedOk (pyStrip l) = true :=
  collapsedOk_dropTrailWs _ (collapsedOk_dropWhile _ l h)

theorem pyStrip_idem (l : List Char) : pyStrip (pyStrip l) = pyStrip l := by
  have h1 : noLeadWsOk (pyStrip l) = true := noLeadWsOk_pyStrip l
  have h2 : noTrailWsOk (pyStrip l) = true := noTrailWsOk_pyStrip l
  show dropTrailWs (dropLeadWs (pyStrip l)) = pyStrip l
  rw [dropLeadWs_eq_self _ h1, dropTrailWs_eq_self _ h2]

theorem pyStripS_idem (s : String) : pyStripS (pyStripS s) = pyStripS s := by
  show (⟨pyStrip (⟨pyStrip s.data⟩ : String).data⟩ : String) = ⟨pyStrip s.data⟩
  rw [show (⟨pyStrip s.data⟩ : String).data = pyStrip s.data from rfl, pyStrip_idem]

/-! ## Helper lemmas: extraction and validation -/

theorem stripFilterStrs_ok_mem :
    ∀ (items : List PyLeaf) (ts : List String), stripFilterStrs items = .ok ts →
      ∀ t ∈ ts, t ≠ "" ∧ pyStripS t = t
  | [], ts, h => by
    simp only [stripFilterStrs] at h
    cases h
    intro t ht
    cases ht
  | .lStr s :: rest, ts, h => by
    simp only [stripFilterStrs] at h
    cases hrec : stripFilterStrs rest with
    | error e => rw [hrec] at h; cases h
    | ok r =>
      rw [hrec] at h
      dsimp only at h
      have ih := stripFilterStrs_ok_mem rest r hrec
      by_cases hs : pyStripS s = ""
      · rw [if_pos hs] at h
        cases h
        exact ih
      · rw [if_neg hs] at h
        cases h
        intro t ht
        rcases List.mem_cons.1 ht with h1 | h2
        · subst h1
          exact ⟨hs, pyStripS_idem s⟩
        · exact ih t h2
  | .lNull :: rest, ts, h => by simp only [stripFilterStrs] at h; cases h
  | .lBool b :: rest, ts, h => by simp only [stripFilterStrs] at h; cases h
  | .lNum q :: rest, ts, h => by simp only [stripFilterStrs] at h; cases h

theorem stripFilterStrs_map_lStr (tags : List String) :
    stripFilterStrs (tags.map PyLeaf.lStr)
      = .ok ((tags.map pyStripS).filter (fun s => s ≠ "")) := by
  induction tags with
  | nil => rfl
  | cons t ts ih =>
    simp only [List.map_cons, stripFilterStrs, ih, List.filter_cons]
    by_cases hs : pyStripS t = "" <;> simp [hs]

theorem composeExtractFields_ok (parsed : List (String × PyVal)) (tone m : String)
    (r : ComposeTweetResult) (h : composeExtractFields parsed tone m = .ok r) :
    pyStripS r.tweet = r.tweet
      ∧ (∀ t ∈ r.hashtags, t ≠ "" ∧ pyStripS t = t)
      ∧ r.tone = tone ∧ r.model = m := by
  unfold composeExtractFields at h
  split at h
  · cases h
  · rename_i s _
    split at h
    · cases h
    · rename_i items hitems
      split at h
      · cases h
      · rename_i tags htags
        cases h
        exact ⟨pyStripS_idem s, stripFilterStrs_ok_mem items tags htags, rfl, rfl⟩
  · cases h

theorem judgePostProcess_ok (parsed : List (String × PyVal)) (m : String)
    (v : JudgeTweetResult) (h : judgePostProcess parsed m = .ok v) :
    (v.should_publish = false → v.feedback ≠ "")
      ∧ (v.should_publish = true → v.feedback = "") := by
  unfold judgePostProcess at h
  split at h
  · rename_i raw _
    cases h
    by_cases hsp : pyTruthy (dictGet parsed "should_publish" (.vBool false)) = true
    · constructor
      · intro hfalse
        rw [hsp] at hfalse
        cases hfalse
      · intro _
        simp [hsp]
    · have hsp' : pyTruthy (dictGet parsed "should_publish" (.vBool false)) = false := by
        simpa using hsp
      constructor
      · intro _
        by_cases hfb : pyStripS raw = ""
        · simp only [hsp', if_false, hfb, if_true, Bool.false_eq_true]
          decide
        · simp [hsp', hfb]
      · intro htrue
        rw [hsp'] at htrue
        cases htrue
  · cases h

theorem validateNumField_ok (kwargs : List (String × PyVal)) (k : String)
    (d lo hi : ℚ) (q : ℚ) (h : validateNumField kwargs k d lo hi = .ok q) :
    q = d ∨ (lo ≤ q ∧ q ≤ hi) := by
  unfold validateNumField at h
  split at h
  · rename_i q' _
    split at h
    · cases h
      rename_i hrange
      exact Or.inr hrange
    · cases h
  · cases h
  · cases h
    exact Or.inl rfl

theorem validateComposeTweetInput_ok_temperature (kwargs : List (String × PyVal))
    (i : ComposeTweetInput) (h : validateComposeTweetInput kwargs = .ok i) :
    0 ≤ i.temperature ∧ i.temperature ≤ 2 := by
  unfold validateComposeTweetInput at h
  split at h
  · cases h
  · split at h
    · cases h
    · split at h
      · cases h
      · split at h
        · cases h
        · split at h
          · cases h
          · rename_i temp htemp
            cases h
            rcases validateNumField_ok kwargs "temperature" (mkRat 4 5) 0 2 temp htemp with
              hd | hrange
            · subst hd
              constructor
              · show (0 : ℚ) ≤ mkRat 4 5
                decide
              · show mkRat 4 5 ≤ (2 : ℚ)
                decide
            · exact hrange

/-! ## Helper lemmas: the idealized compose-judge loop -/

theorem twitterAgentLoopIdeal_trace_all (msg : Option String)
    (c : Nat → List (String × PyVal) → ComposeTweetResult)
    (j : Nat → String → JudgeTweetResult) :
    ∀ (fuel i : Nat),
      (twitterAgentLoopIdeal msg c j i fuel).2
        = List.replicate (twitterAgentLoopIdeal msg c j i fuel).2.length
            (twitterAgentComposeKwargs msg)
  | 0, i => rfl
  | fuel + 1, i => by
    have ih := twitterAgentLoopIdeal_trace_all msg c j fuel (i + 1)
    simp only [twitterAgentLoopIdeal]
    split
    · rfl
    · simp only [List.length_cons, List.replicate_succ, List.cons.injEq, true_and]
      exact ih

theorem twitterAgentLoopIdeal_len_le (msg : Option String)
    (c : Nat → List (String × PyVal) → ComposeTweetResult)
    (j : Nat → String → JudgeTweetResult) :
    ∀ (fuel i : Nat), (twitterAgentLoopIdeal msg c j i fuel).2.length ≤ fuel
  | 0, i => Nat.le_refl 0
  | fuel + 1, i => by
    have ih := twitterAgentLoopIdeal_len_le msg c j fuel (i + 1)
    simp only [twitterAgentLoopIdeal]
    split
    · simp
    · simpa using Nat.succ_le_succ ih

theorem twitterAgentLoopIdeal_accept (msg : Option String)
    (c : Nat → List (String × PyVal) → ComposeTweetResult)
    (j : Nat → String → JudgeTweetResult) :
    ∀ (k i fuel : Nat), k < fuel →
      (∀ t, t < k → idealVerdictAt msg c j (i + t) = false) →
      idealVerdictAt msg c j (i + k) = true →
      twitterAgentLoopIdeal msg c j i fuel
        = (.ok ⟨(c (i + k) (twitterAgentComposeKwargs msg)).tweet,
                (c (i + k) (twitterAgentComposeKwargs msg)).hashtags⟩,
           List.replicate (k + 1) (twitterAgentComposeKwargs msg))
  | 0, i, fuel + 1, _, _, hacc => by
    simp only [twitterAgentLoopIdeal]
    rw [if_pos (by simpa [idealVerdictAt] using hacc)]
    simp
  | k + 1, i, fuel + 1, hk, hrej, hacc => by
    have h0 : idealVerdictAt msg c j i = false := by
      simpa using hrej 0 (Nat.succ_pos k)
    have ih := twitterAgentLoopIdeal_accept msg c j k (i + 1) fuel
      (Nat.lt_of_succ_lt_succ hk)
      (fun t ht => by
        have := hrej (t + 1) (Nat.succ_lt_succ ht)
        simpa [Nat.add_assoc, Nat.add_comm 1 t] using this)
      (by simpa [Nat.add_assoc, Nat.add_comm 1 k] using hacc)
    simp only [twitterAgentLoopIdeal]
    rw [if_neg (by simpa [idealVerdictAt] using h0)]
    rw [ih]
    have harith : i + 1 + k = i + (k + 1) := by omega
    rw [harith]
    simp [List.replicate_succ]

theorem twitterAgentLoopIdeal_reject (msg : Option String)
    (c : Nat → List (String × PyVal) → ComposeTweetResult)
    (j : Nat → String → JudgeTweetResult) :
    ∀ (fuel i : Nat), (∀ t, t < fuel → idealVerdictAt msg c j (i + t) = false) →
      twitterAgentLoopIdeal msg c j i fuel
        = (.error (.valueError "Failed to generate a tweet"),
           List.replicate fuel (twitterAgentComposeKwargs msg))
  | 0, i, _ => rfl
  | fuel + 1, i, hrej => by
    have h0 : idealVerdictAt msg c j i = false := by
      simpa using hrej 0 (Nat.succ_pos fuel)
    have ih := twitterAgentLoopIdeal_reject msg c j fuel (i + 1)
      (fun t ht => by
        have := hrej (t + 1) (Nat.succ_lt_succ ht)
        simpa [Nat.add_assoc, Nat.add_comm 1 t] using this)
    simp only [twitterAgentLoopIdeal]
    rw [if_neg (by simpa [idealVerdictAt] using h0)]
    rw [ih]
    simp [List.replicate_succ]

/-! ## Claim theorems -/

/-- C1: `_compose_linkedin_post` was claimed to separate the trimmed
headline, body and cta by blank lines and to append a blank line plus the
space-joined hashtags.  The code inserts `""` separators into `sections` but
then joins only the truthy sections (`if section`), so the separators are
dropped and the sections are joined by single newlines: on the claimed
artifact the output is `"Ship It\nWe shipped.\nTry it now.\nlaunch ai"`,
not the claimed `"Ship It\n\nWe shipped.\n\nTry it now.\n\nlaunch ai"`. -/
theorem c1_linkedin_assembly :
    composeLinkedinPost "Ship It" "We shipped." "Try it now." ["launch", "ai"]
      = "Ship It\nWe shipped.\nTry it now.\nlaunch ai"
      ∧ decide (composeLinkedinPost "Ship It" "We shipped." "Try it now." ["launch", "ai"]
          = "Ship It\n\nWe shipped.\n\nTry it now.\n\nlaunch ai") = false := by
  constructor <;> decide

/-- C2 (counterexample): the compose call of attempt `k + 1` does not
receive the attempt-`k` feedback: two all-rejecting judges returning
different feedback texts ("too long" vs "be shorter") produce identical
compose-input traces, and rejections did occur (the run ends in the
exhaustion error). -/
theorem c2_feedback_not_forwarded_cex :
    (twitterAgentIdeal (some "hi")
        (fun _ _ => ⟨"t", "punchy", [], "m"⟩)
        (fun _ _ => ⟨false, "too long", "m"⟩)).2
      = (twitterAgentIdeal (some "hi")
          (fun _ _ => ⟨"t", "punchy", [], "m"⟩)
          (fun _ _ => ⟨false, "be shorter", "m"⟩)).2
      ∧ (twitterAgentIdeal (some "hi")
          (fun _ _ => ⟨"t", "punchy", [], "m"⟩)
          (fun _ _ => ⟨false, "too long", "m"⟩)).1
        = .error (.valueError "Failed to generate a tweet") := by
  constructor <;> decide

/-- C2 (amended): every compose call of the loop receives the same fixed
keyword arguments built from the workflow input (message, tone "punchy",
include_hashtags true, model, temperature); neither the prior candidate nor
the judge feedback is ever passed to a compose call. -/
theorem c2_compose_inputs_fixed (msg : Option String)
    (c : Nat → List (String × PyVal) → ComposeTweetResult)
    (j : Nat → String → JudgeTweetResult) :
    (twitterAgentIdeal msg c j).2
      = List.replicate (twitterAgentIdeal msg c j).2.length
          (twitterAgentComposeKwargs msg) :=
  twitterAgentLoopIdeal_trace_all msg c j 3 0

/-- C3: the compose-judge loop of `twitter_agent` performs at most 3
compose/judge round trips (the hard-coded `range(3)` bound, the only
configuration the code offers), and when the judge first accepts on attempt
`k` it performs exactly `k + 1` round trips and returns that attempt's
candidate. -/
theorem c3_loop_round_trips (msg : Option String)
    (c : Nat → List (String × PyVal) → ComposeTweetResult)
    (j : Nat → String → JudgeTweetResult) :
    (twitterAgentIdeal msg c j).2.length ≤ 3
      ∧ ∀ k, k < 3 → (∀ t, t < k → idealVerdictAt msg c j t = false) →
          idealVerdictAt msg c j k = true →
          (twitterAgentIdeal msg c j).2.length = k + 1
            ∧ (twitterAgentIdeal msg c j).1
                = .ok ⟨(c k (twitterAgentComposeKwargs msg)).tweet,
                       (c k (twitterAgentComposeKwargs msg)).hashtags⟩ := by
  constructor
  · exact twitterAgentLoopIdeal_len_le msg c j 3 0
  · intro k hk hrej hacc
    have hrun := twitterAgentLoopIdeal_accept msg c j k 0 3 hk
      (fun t ht => by simpa using hrej t ht) (by simpa using hacc)
    unfold twitterAgentIdeal
    rw [hrun]
    simp

/-- C3 (witness): with a judge that first accepts on attempt 1, the loop
performs exactly 2 round trips and returns the attempt-1 candidate. -/
theorem c3_loop_round_trips_witness :
    (twitterAgentIdeal (some "launch day")
        (fun _ _ => ⟨"tweet text", "punchy", [], "gpt-4o-mini"⟩)
        (fun i _ => ⟨i == 1, "", "gpt-4o-mini"⟩)).2.length = 1 + 1
      ∧ (twitterAgentIdeal (some "launch day")
          (fun _ _ => ⟨"tweet text", "punchy", [], "gpt-4o-mini"⟩)
          (fun i _ => ⟨i == 1, "", "gpt-4o-mini"⟩)).1
        = .ok ⟨"tweet text", []⟩ :=
  (c3_loop_round_trips (some "launch day")
      (fun _ _ => ⟨"tweet text", "punchy", [], "gpt-4o-mini"⟩)
      (fun i _ => ⟨i == 1, "", "gpt-4o-mini"⟩)).2 1
    (by decide) (by decide) (by decide)

/-- C4 (counterexample): the error raised after three rejections carries
neither the last candidate nor the last feedback: two all-rejected runs with
different candidates ("candidate one" vs "candidate two") and different
feedback ("too long" vs "add a hook") end in the very same bare
`ValueError("Failed to generate a tweet")`. -/
theorem c4_error_payload_cex :
    (twitterAgentIdeal (some "a")
        (fun _ _ => ⟨"candidate one", "punchy", [], "m"⟩)
        (fun _ _ => ⟨false, "too long", "m"⟩)).1
      = (twitterAgentIdeal (some "a")
          (fun _ _ => ⟨"candidate two", "punchy", [], "m"⟩)
          (fun _ _ => ⟨false, "add a hook", "m"⟩)).1
      ∧ (twitterAgentIdeal (some "a")
          (fun _ _ => ⟨"candidate one", "punchy", [], "m"⟩)
          (fun _ _ => ⟨false, "too long", "m"⟩)).1
        = .error (.valueError "Failed to generate a tweet") := by
  constructor <;> decide

/-- C4 (amended): when the judge rejects all 3 attempts the loop never
returns a result and fails, but with the constant
`ValueError("Failed to generate a tweet")`, which carries no candidate and
no feedback. -/
theorem c4_exhaustion_fails (msg : Option String)
    (c : Nat → List (String × PyVal) → ComposeTweetResult)
    (j : Nat → String → JudgeTweetResult)
    (h : ∀ t, t < 3 → idealVerdictAt msg c j t = false) :
    twitterAgentIdeal msg c j
      = (.error (.valueError "Failed to generate a tweet"),
         List.replicate 3 (twitterAgentComposeKwargs msg)) := by
  have hrun := twitterAgentLoopIdeal_reject msg c j 3 0
    (fun t ht => by simpa using h t ht)
  simpa [twitterAgentIdeal] using hrun

/-- C4 (witness): a concrete all-rejecting run ends in the exhaustion
error. -/
theorem c4_exhaustion_fails_witness :
    twitterAgentIdeal (some "hi")
        (fun _ _ => ⟨"t", "punchy", [], "m"⟩)
        (fun _ _ => ⟨false, "no", "m"⟩)
      = (.error (.valueError "Failed to generate a tweet"),
         List.replicate 3 (twitterAgentComposeKwargs (some "hi"))) :=
  c4_exhaustion_fails (some "hi")
    (fun _ _ => ⟨"t", "punchy", [], "m"⟩)
    (fun _ _ => ⟨false, "no", "m"⟩) (by decide)

/-- C5: every successfully produced judge verdict has a non-empty feedback
when `should_publish` is false (an empty model feedback is replaced by the
generic fallback string) and an empty feedback when `should_publish` is
true. -/
theorem c5_judge_feedback_invariant (parsed : List (String × PyVal))
    (m : String) (v : JudgeTweetResult) (h : judgePostProcess parsed m = .ok v) :
    (v.should_publish = false → v.feedback ≠ "")
      ∧ (v.should_publish = true → v.feedback = "") :=
  judgePostProcess_ok parsed m v h

/-- C5 (witness): on the empty payload the verdict is a rejection with the
generic fallback feedback, which satisfies the invariant. -/
theorem c5_judge_feedback_invariant_witness :
    ((⟨false, judgeFallbackFeedback, "gpt-4o-mini"⟩ : JudgeTweetResult).should_publish
          = false →
        (⟨false, judgeFallbackFeedback, "gpt-4o-mini"⟩ : JudgeTweetResult).feedback ≠ "")
      ∧ ((⟨false, judgeFallbackFeedback, "gpt-4o-mini"⟩ : JudgeTweetResult).should_publish
            = true →
          (⟨false, judgeFallbackFeedback, "gpt-4o-mini"⟩ : JudgeTweetResult).feedback
            = "") :=
  c5_judge_feedback_invariant [] "gpt-4o-mini"
    ⟨false, judgeFallbackFeedback, "gpt-4o-mini"⟩ (by decide)

/-- C6: extraction post-processing trims every extracted string field and
drops blank entries from the hashtag list while keeping the surviving
entries in order (formalized by the comprehension equation on arbitrary
string lists); in particular the payload hashtags
`["  launch ", "", "ai"]` extract to `["launch", "ai"]`. -/
theorem c6_extraction_postprocess (parsed : List (String × PyVal))
    (tone m : String) (r : ComposeTweetResult)
    (h : composeExtractFields parsed tone m = .ok r) :
    pyStripS r.tweet = r.tweet
      ∧ (∀ t ∈ r.hashtags, t ≠ "" ∧ pyStripS t = t)
      ∧ (∀ tags : List String,
          stripFilterStrs (tags.map PyLeaf.lStr)
            = .ok ((tags.map pyStripS).filter (fun s => s ≠ "")))
      ∧ composeExtractFields
          [("tweet", .vStr "Ship"),
           ("hashtags", .vList [.lStr "  launch ", .lStr "", .lStr "ai"])]
          "punchy" "gpt-4o-mini"
          = .ok ⟨"Ship", "punchy", ["launch", "ai"], "gpt-4o-mini"⟩ := by
  obtain ⟨h1, h2, _, _⟩ := composeExtractFields_ok parsed tone m r h
  exact ⟨h1, h2, stripFilterStrs_map_lStr, by decide⟩

/-- C6 (witness): a concrete successful extraction satisfies the
post-processing properties. -/
theorem c6_extraction_postprocess_witness :
    pyStripS "hi there" = "hi there"
      ∧ (∀ t ∈ (["launch", "ai"] : List String), t ≠ "" ∧ pyStripS t = t)
      ∧ (∀ tags : List String,
          stripFilterStrs (tags.map PyLeaf.lStr)
            = .ok ((tags.map pyStripS).filter (fun s => s ≠ "")))
      ∧ composeExtractFields
          [("tweet", .vStr "Ship"),
           ("hashtags", .vList [.lStr "  launch ", .lStr "", .lStr "ai"])]
          "punchy" "gpt-4o-mini"
          = .ok ⟨"Ship", "punchy", ["launch", "ai"], "gpt-4o-mini"⟩ :=
  c6_extraction_postprocess
    [("tweet", .vStr " hi there "),
     ("hashtags", .vList [.lStr "  launch ", .lStr "", .lStr "ai"])]
    "punchy" "gpt-4o-mini"
    ⟨"hi there", "punchy", ["launch", "ai"], "gpt-4o-mini"⟩ (by decide)

/-- C7 (counterexample): extraction is not all-or-nothing in the claimed
sense: the payload `{"tweet": "", "hashtags": []}` extracts successfully to
an artifact whose required `tweet` field is empty. -/
theorem c7_empty_tweet_extracts_cex :
    composeExtractFields [("tweet", .vStr ""), ("hashtags", .vList [])]
        "punchy" "gpt-4o-mini"
      = .ok ⟨"", "punchy", [], "gpt-4o-mini"⟩
      ∧ (ComposeTweetResult.mk "" "punchy" [] "gpt-4o-mini").tweet = "" := by
  constructor <;> decide

/-- C7 (amended): an absent or empty message content fails with the
empty-content `TypeError` before validation, and a successful extraction
yields an artifact whose fields are present and typed, with the tweet
trimmed (though possibly empty — non-emptiness is not enforced) and every
hashtag entry non-empty; no partially populated artifact is returned. -/
theorem c7_extraction_classification :
    (∀ v : String → Except PyError ComposeTweetResult,
        response_to_pydantic (α := ComposeTweetResult) none v
            = .error (.typeError "OpenAI returned empty content.")
          ∧ response_to_pydantic (α := ComposeTweetResult) (some "") v
              = .error (.typeError "OpenAI returned empty content."))
      ∧ (∀ (parsed : List (String × PyVal)) (tone m : String)
           (r : ComposeTweetResult),
          composeExtractFields parsed tone m = .ok r →
            pyStripS r.tweet = r.tweet ∧ ∀ t ∈ r.hashtags, t ≠ "") := by
  constructor
  · intro v
    exact ⟨rfl, rfl⟩
  · intro parsed tone m r h
    obtain ⟨h1, h2, _, _⟩ := composeExtractFields_ok parsed tone m r h
    exact ⟨h1, fun t ht => (h2 t ht).1⟩

/-- C7 (witness): the empty-content classification and a concrete
successful extraction. -/
theorem c7_extraction_classification_witness :
    response_to_pydantic (α := ComposeTweetResult) none
        (fun _ => .error PyError.attributeError)
        = .error (.typeError "OpenAI returned empty content.")
      ∧ (pyStripS "hi" = "hi" ∧ ∀ t ∈ (["launch"] : List String), t ≠ "") :=
  ⟨(c7_extraction_classification.1 (fun _ => .error PyError.attributeError)).1,
   c7_extraction_classification.2
     [("tweet", .vStr " hi "), ("hashtags", .vList [.lStr "launch"])]
     "punchy" "m" ⟨"hi", "punchy", ["launch"], "m"⟩ (by decide)⟩

/-- C8 (counterexample): the declared constraints do not include
non-emptiness of required strings: the payload `{"prompt": ""}` passes
`ComposeTweetInput` validation. -/
theorem c8_empty_prompt_accepted_cex :
    validateComposeTweetInput [("prompt", .vStr "")]
      = .ok ⟨"", "punchy", true, "gpt-4o-mini", mkRat 4 5⟩ := by
  decide

/-- C8 (amended): pydantic checks the presence of required fields and the
`[0, 2]` temperature bounds before the task body runs, and an invalid
payload fails with a validation error and zero model calls; but required
strings may be empty and no hashtag-count bound exists (the input model has
no hashtag-list field at all). -/
theorem c8_validation_before_call :
    (∀ (kwargs : List (String × PyVal)) (i : ComposeTweetInput),
        validateComposeTweetInput kwargs = .ok i →
          0 ≤ i.temperature ∧ i.temperature ≤ 2)
      ∧ (∀ (kwargs : List (String × PyVal)) (e : PyError)
           (oracle : ComposeTweetInput → List (String × PyVal)),
          validateComposeTweetInput kwargs = .error e →
            composeTweetTask kwargs oracle = (.error e, 0))
      ∧ (∀ (kwargs : List (String × PyVal)) (e : PyError)
           (oracle : JudgeTweetInputV → List (String × PyVal)),
          validateJudgeTweetInput kwargs = .error e →
            judgeTweetTask kwargs oracle = (.error e, 0)) := by
  refine ⟨validateComposeTweetInput_ok_temperature, ?_, ?_⟩
  · intro kwargs e oracle h
    simp [composeTweetTask, h]
  · intro kwargs e oracle h
    simp [judgeTweetTask, h]

/-- C8 (witness): a valid payload has its temperature within bounds, and
payloads missing the required string fail with zero model calls. -/
theorem c8_validation_before_call_witness :
    (0 ≤ (ComposeTweetInput.mk "go" "punchy" true "gpt-4o-mini" (mkRat 4 5)).temperature
        ∧ (ComposeTweetInput.mk "go" "punchy" true "gpt-4o-mini" (mkRat 4 5)).temperature
            ≤ 2)
      ∧ composeTweetTask [] (fun _ => [])
          = (.error (.validationError "prompt: Field required"), 0)
      ∧ judgeTweetTask [] (fun _ => [])
          = (.error (.validationError "tweet: Field required"), 0) :=
  ⟨c8_validation_before_call.1 [("prompt", .vStr "go")]
      (ComposeTweetInput.mk "go" "punchy" true "gpt-4o-mini" (mkRat 4 5)) (by decide),
   c8_validation_before_call.2.1 [] (.validationError "prompt: Field required")
      (fun _ => []) (by decide),
   c8_validation_before_call.2.2 [] (.validationError "tweet: Field required")
      (fun _ => []) (by decide)⟩

/-- C9: for every workflow input and any model behavior, `twitter_agent`
fails `ComposeTweetInput` validation on its first compose invocation — the
constructed kwargs carry `message` but not the required `prompt` field — so
zero model calls are made and the workflow never returns a
`TwitterAgentOutput`. -/
theorem c9_workflow_always_fails_validation (msg : Option String)
    (co : Nat → ComposeTweetInput → List (String × PyVal))
    (jo : Nat → JudgeTweetInputV → List (String × PyVal)) :
    twitterAgentRun msg co jo
      = (.error (.validationError "prompt: Field required"), 0) := by
  cases msg <;> rfl

/-- C10 (counterexample): `_prepare_html` can return a string with trailing
whitespace: on input `"a b"` with bound 2 the condensed text `"a b"` is
truncated to `"a "`, which ends in a space. -/
theorem c10_trailing_space_cex :
    prepare_html ("a b".data) 2 = "a ".data
      ∧ noTrailWsOk (prepare_html ("a b".data) 2) = false := by
  constructor <;> decide

/-- C10 (amended): `_prepare_html` returns at most `max_characters`
characters, with no leading whitespace and all whitespace collapsed to
single non-adjacent spaces; the output also has no trailing whitespace
provided the condensed text fits within the bound (truncation may cut just
after a space). -/
theorem c10_prepare_html_shape (raw : List Char) (maxChars : Nat) :
    (prepare_html raw maxChars).length ≤ maxChars
      ∧ noLeadWsOk (prepare_html raw maxChars) = true
      ∧ collapsedOk (prepare_html raw maxChars) = true
      ∧ ((condensedHtml raw).length ≤ maxChars →
          noTrailWsOk (prepare_html raw maxChars) = true) := by
  have hlead : noLeadWsOk (condensedHtml raw) = true := noLeadWsOk_pyStrip _
  have hcoll : collapsedOk (condensedHtml raw) = true :=
    collapsedOk_pyStrip _ (collapsedOk_collapseWs _)
  have htrail : noTrailWsOk (condensedHtml raw) = true := noTrailWsOk_pyStrip _
  unfold prepare_html
  by_cases h : maxChars < (condensedHtml raw).length
  · rw [if_pos h]
    refine ⟨?_, noLeadWsOk_take _ _ hlead, collapsedOk_take _ _ hcoll, ?_⟩
    · simp [List.length_take_le]
    · intro hle
      omega
  · rw [if_neg h]
    exact ⟨by omega, hlead, hcoll, fun _ => htrail⟩

/-- C10 (witness): on `"  a  b "` with bound 10 no truncation occurs and
all four guarantees hold, including the absence of trailing whitespace. -/
theorem c10_prepare_html_shape_witness :
    (prepare_html ("  a  b ".data) 10).length ≤ 10
      ∧ noLeadWsOk (prepare_html ("  a  b ".data) 10) = true
      ∧ collapsedOk (prepare_html ("  a  b ".data) 10) = true
      ∧ noTrailWsOk (prepare_html ("  a  b ".data) 10) = true := by
  have h := c10_prepare_html_shape ("  a  b ".data) 10
  exact ⟨h.1, h.2.1, h.2.2.1, h.2.2.2 (by decide)⟩

end Pycon25

